import Mathlib

/-!
Shallow embedding of `src/tv_service.py` (the pi-tv service): the gesture
classifier (`touchscreen_loop`), the playback loop (`play_videos`), the show
selection step of `video_loop`, the process-tree signalling helpers
(`kill_child_processes`, `resume_tv_static`, `stop_tv_static`) and the video
enumeration (`get_videos`).

Python floats for timestamps are modelled as rationals; `time.time()` values
are supplied as event data.  OS effects (spawning, signalling, waiting) are
modelled as explicit action traces or signal lists.  Python exceptions that
the claims are about (`ValueError` from `list.remove`, `IndexError` from
indexing an empty list) are modelled with `Except`.
-/

/-- The enum `TouchScreenCommand` of the source. -/
inductive TouchScreenCommand
  | SKIP
  | CHANGE_SHOW
  deriving DecidableEq, Repr

/-- `DOUBLE_CLICK_THRESHOLD_SEC = 0.20` of the source, as a rational. -/
def DOUBLE_CLICK_THRESHOLD_SEC : ℚ := 20 / 100

/-- `LONG_PRESS_THRESHOLD_SEC = 2.0` of the source, as a rational. -/
def LONG_PRESS_THRESHOLD_SEC : ℚ := 2

/-- `VALID_VIDEO_TYPES = ['.mp4', '.mkv']` of the source. -/
def VALID_VIDEO_TYPES : List String := [".mp4", ".mkv"]

/-- evdev constant `ecodes.EV_KEY`. -/
def EV_KEY : Nat := 1

/-- evdev constant `KeyEvent.key_up` (a release edge). -/
def key_up : Nat := 0

/-- evdev constant `KeyEvent.key_down` (a press edge). -/
def key_down : Nat := 1

/-- POSIX `signal.SIGTERM`. -/
def SIGTERM : Nat := 15

/-- POSIX `signal.SIGSTOP`. -/
def SIGSTOP : Nat := 19

/-- POSIX `signal.SIGCONT`. -/
def SIGCONT : Nat := 18

/-- A raw evdev input event as `touchscreen_loop` reads it: its `event.type`,
its `event.value` (0 = key_up, 1 = key_down, 2 = hold) and the value of
`time.time()` at the moment the event is processed. -/
structure InputEvent where
  etype : Nat
  value : Nat
  time : ℚ
  deriving DecidableEq

/-- Pointwise update of the `last_event_time` dictionary (`d[k] = t`). -/
def updateTime (d : Nat → ℚ) (k : Nat) (t : ℚ) : Nat → ℚ :=
  fun n => if n = k then t else d n

/-- One iteration of the `for event in dev.read_loop()` body of
`touchscreen_loop` (src/tv_service.py lines 199-214): given the
`last_event_time` dictionary and the event, returns the updated dictionary
and the list of commands pushed onto the queue by this event (`[]` or a
single command).  Mirrors the source: non-`EV_KEY` events are ignored; a
`key_up` event computes `key_up_diff` and `key_down_diff` and emits `SKIP`
on a fast double click, else `CHANGE_SHOW` on a long press, else nothing;
every `EV_KEY` event then overwrites its own slot of `last_event_time`. -/
def touch_step (last_event_time : Nat → ℚ) (e : InputEvent) :
    (Nat → ℚ) × List TouchScreenCommand :=
  if e.etype = EV_KEY then
    let now := e.time
    let cmds :=
      if e.value = key_up then
        let key_up_diff := now - last_event_time key_up
        let key_down_diff := now - last_event_time key_down
        if key_up_diff < DOUBLE_CLICK_THRESHOLD_SEC then
          [TouchScreenCommand.SKIP]
        else if key_down_diff > LONG_PRESS_THRESHOLD_SEC then
          [TouchScreenCommand.CHANGE_SHOW]
        else []
      else []
    (updateTime last_event_time e.value now, cmds)
  else (last_event_time, [])

/-- `touchscreen_loop` over a finite prefix of the event stream: the queue
contents produced (in emission order) starting from a given
`last_event_time` dictionary. -/
def touchscreen_loop (last_event_time : Nat → ℚ) :
    List InputEvent → List TouchScreenCommand
  | [] => []
  | e :: es =>
      let r := touch_step last_event_time e
      r.2 ++ touchscreen_loop r.1 es

/-- What the playback loop observes for one spawned video: either the player
process exits naturally before any command is read from the queue, or a
command is read from the queue while the player is still running. -/
inductive Outcome
  | natural
  | cmd (c : TouchScreenCommand)
  deriving DecidableEq, Repr

/-- The observable OS-level actions of `play_videos`, tagged with the video
being played where one is concerned: suspending/resuming the tv-static
process tree, spawning the omxplayer for a video, signalling the player's
descendant tree (`kill_child_processes(play_process.pid)`), killing the
player itself (`play_process.kill()`), and reaping it
(`play_process.wait()`). -/
inductive PlayerAction (α : Type)
  | stopStatic
  | resumeStatic
  | spawn (v : α)
  | killTree (v : α)
  | killPlayer (v : α)
  | waitPlayer (v : α)
  deriving DecidableEq, Repr

/-- One iteration of the `for video in videos` body of `play_videos`
(src/tv_service.py lines 137-162): the action trace of the iteration and
whether the loop continues with the next video (`false` exactly when the
`return` for `CHANGE_SHOW` is taken).  `tv_static` says whether
`tv_static_proc` is non-None (the truthiness test inside
`stop_tv_static`/`resume_tv_static`).  Mirrors the source: the static tree
is stopped and the player spawned; on natural exit the player is waited on;
on a command the static tree is resumed, the player's descendants signalled
and the player killed, then `SKIP` breaks to the `wait` and the next video
while `CHANGE_SHOW` returns at once (skipping the `wait`). -/
def playOne {α : Type} (tv_static : Bool) (video : α) (o : Outcome) :
    List (PlayerAction α) × Bool :=
  let pre := (if tv_static then [PlayerAction.stopStatic] else []) ++ [PlayerAction.spawn video]
  match o with
  | Outcome.natural => (pre ++ [PlayerAction.waitPlayer video], true)
  | Outcome.cmd c =>
      let interrupt := (if tv_static then [PlayerAction.resumeStatic] else []) ++
        [PlayerAction.killTree video, PlayerAction.killPlayer video]
      match c with
      | TouchScreenCommand.SKIP =>
          (pre ++ interrupt ++ [PlayerAction.waitPlayer video], true)
      | TouchScreenCommand.CHANGE_SHOW => (pre ++ interrupt, false)

/-- `play_videos(videos, command_queue, tv_static_proc)` as an action trace.
The in-place `random.shuffle(videos)` at the top of the source function is
modelled by quantifying over the already-shuffled list; `outs` supplies, per
video, what the poll loop observes (exhausted input means no command ever
arrives, i.e. `Outcome.natural`). -/
def play_videos {α : Type} (tv_static : Bool) :
    List α → List Outcome → List (PlayerAction α)
  | [], _ => []
  | v :: rest, outs =>
      let r := playOne tv_static v (outs.headD Outcome.natural)
      if r.2 then r.1 ++ play_videos tv_static rest outs.tail else r.1

/-- The Python exceptions the selection step of `video_loop` can raise:
`ValueError` from `candidate_shows.remove(last_show_played)` when the show
is absent, `IndexError` from `candidate_shows[0]` when the candidate list is
empty. -/
inductive PyError
  | valueError
  | indexError
  deriving DecidableEq, Repr

/-- The candidate-set construction of `video_loop` (src/tv_service.py lines
178-180): `candidate_shows = list(shows)`, then, when `last_show_played` is
truthy (a non-None, non-empty string), `candidate_shows.remove(last_show_played)`,
which removes the first occurrence and raises `ValueError` when the show is
not in the list. -/
def candidate_shows (shows : List String) (last_show_played : Option String) :
    Except PyError (List String) :=
  match last_show_played with
  | none => Except.ok shows
  | some l =>
      if l = "" then Except.ok shows
      else if l ∈ shows then Except.ok (shows.erase l)
      else Except.error PyError.valueError

/-- The no-override selection branch of `video_loop` (src/tv_service.py
lines 177-182): build the candidate list, `random.shuffle` it (modelled by
an arbitrary `shuffle` function; the claims constrain it to permute its
argument) and take `candidate_shows[0]`, which raises `IndexError` on an
empty list. -/
def select_show (shows : List String) (last_show_played : Option String)
    (shuffle : List String → List String) : Except PyError String :=
  match candidate_shows shows last_show_played with
  | Except.error e => Except.error e
  | Except.ok cs =>
      match (shuffle cs).head? with
      | some s => Except.ok s
      | none => Except.error PyError.indexError

/-- The OS process state `kill_child_processes` consults: which pids are
alive (`psutil.Process(pid)` raises `NoSuchProcess` otherwise) and the
recursive descendant set `parent.children(recursive=True)` of a live pid. -/
structure ProcTable where
  alive : List Nat
  descendants : Nat → List Nat

/-- `kill_child_processes(parent_pid, sig)` (src/tv_service.py lines
113-122): the `(pid, signal)` pairs delivered.  The `try/except
psutil.NoSuchProcess` of the source catches the vanished-process case, logs
and returns, so that path yields `Except.ok []`; an uncaught exception would
be an `Except.error`, and there is none. -/
def kill_child_processes (tbl : ProcTable) (parent_pid : Nat) (sig : Nat) :
    Except PyError (List (Nat × Nat)) :=
  if parent_pid ∈ tbl.alive then
    Except.ok ((tbl.descendants parent_pid).map (fun p => (p, sig)))
  else
    Except.ok []

/-- `resume_tv_static(tv_static_proc)` (src/tv_service.py lines 125-127):
no-op when the process handle is None, else `SIGCONT` to the tree. -/
def resume_tv_static (tbl : ProcTable) (tv_static_proc : Option Nat) :
    Except PyError (List (Nat × Nat)) :=
  match tv_static_proc with
  | none => Except.ok []
  | some pid => kill_child_processes tbl pid SIGCONT

/-- `stop_tv_static(tv_static_proc)` (src/tv_service.py lines 130-132):
no-op when the process handle is None, else `SIGSTOP` to the tree. -/
def stop_tv_static (tbl : ProcTable) (tv_static_proc : Option Nat) :
    Except PyError (List (Nat × Nat)) :=
  match tv_static_proc with
  | none => Except.ok []
  | some pid => kill_child_processes tbl pid SIGSTOP

/-- `os.path.join(directory, file)` for a relative `file` and a `directory`
with no trailing separator, as `get_videos` uses it. -/
def os_path_join (directory file : String) : String := directory ++ "/" ++ file

/-- Python `str.lower()`, character by character. -/
def py_lower (s : String) : String := ⟨s.data.map Char.toLower⟩

/-- Python `s.endswith(suffix)`, on the character lists. -/
def py_endswith (s suffix : String) : Bool := suffix.data.isSuffixOf s.data

/-- The extension test of `get_videos`:
`any([file.lower().endswith(vtype) for vtype in VALID_VIDEO_TYPES])`. -/
def is_video (file : String) : Bool :=
  VALID_VIDEO_TYPES.any (fun vtype => py_endswith (py_lower file) vtype)

/-- `get_videos(directory)` (src/tv_service.py lines 104-111) over the
`os.listdir` result `listing`: the accumulating `for` loop that appends
`os.path.join(directory, file)` for each entry passing the extension
test. -/
def get_videos (directory : String) (listing : List String) : List String :=
  listing.foldl
    (fun videos file =>
      if is_video file then videos ++ [os_path_join directory file] else videos)
    []

/-- Helper: the loop body of `get_videos` (a `foldl` that appends) equals a
`filter` then `map`, for any accumulator. -/
theorem get_videos_foldl (directory : String) (listing : List String) :
    ∀ acc : List String,
      listing.foldl
        (fun videos file =>
          if is_video file then videos ++ [os_path_join directory file] else videos)
        acc =
      acc ++ (listing.filter is_video).map (os_path_join directory) := by
  induction listing with
  | nil => intro acc; simp
  | cons f fs ih =>
      intro acc
      by_cases hf : is_video f <;> simp [hf, ih, List.filter_cons]

/-- Claim C1: for every key-release touch event the classifier enqueues at
most one command, checking the double-click condition first: a release gap
strictly below 0.20s emits `SKIP`; otherwise a press gap strictly above
2.0s emits `CHANGE_SHOW`; otherwise nothing.  Press events never emit a
command. -/
theorem C1_gesture_classification (last_event_time : Nat → ℚ) (e : InputEvent) :
    (touch_step last_event_time e).2.length ≤ 1 ∧
    (e.etype = EV_KEY → e.value = key_up →
      (touch_step last_event_time e).2 =
        (if e.time - last_event_time key_up < DOUBLE_CLICK_THRESHOLD_SEC then
          [TouchScreenCommand.SKIP]
        else if e.time - last_event_time key_down > LONG_PRESS_THRESHOLD_SEC then
          [TouchScreenCommand.CHANGE_SHOW]
        else [])) ∧
    (e.value = key_down → (touch_step last_event_time e).2 = []) := by
  refine ⟨?_, ?_, ?_⟩
  · unfold touch_step
    split
    · dsimp only
      split
      · split
        · simp
        · split <;> simp
      · simp
    · simp
  · intro h1 h2
    simp [touch_step, h1, h2]
  · intro h2
    have hne : e.value ≠ key_up := by simp [h2, key_up, key_down]
    unfold touch_step
    split
    · simp [hne]
    · simp

/-- Witness for C1: a release 0.1s after the previous one (gap below the
0.20s double-click threshold) emits exactly one `SKIP`. -/
theorem C1_witness :
    (touch_step (fun _ => (0 : ℚ)) ⟨1, 0, 1 / 10⟩).2 = [TouchScreenCommand.SKIP] := by
  have h := (C1_gesture_classification (fun _ => (0 : ℚ)) ⟨1, 0, 1 / 10⟩).2.1 rfl rfl
  rw [h]
  norm_num [DOUBLE_CLICK_THRESHOLD_SEC]

/-- Claim C2: on a command received while the player runs, `play_videos`
resumes the static tree (when a static process exists), signals the
player's descendant tree, and kills the player; then `SKIP` proceeds to the
next video of the (shuffled) sequence while `CHANGE_SHOW` returns at once,
playing none of the remaining videos. -/
theorem C2_command_handling {α : Type} (tv_static : Bool) (video : α)
    (rest : List α) (outs : List Outcome) (c : TouchScreenCommand) :
    (c = TouchScreenCommand.SKIP →
      play_videos tv_static (video :: rest) (Outcome.cmd c :: outs) =
        (if tv_static then [PlayerAction.stopStatic] else []) ++
        [PlayerAction.spawn video] ++
        (if tv_static then [PlayerAction.resumeStatic] else []) ++
        [PlayerAction.killTree video, PlayerAction.killPlayer video,
         PlayerAction.waitPlayer video] ++
        play_videos tv_static rest outs) ∧
    (c = TouchScreenCommand.CHANGE_SHOW →
      play_videos tv_static (video :: rest) (Outcome.cmd c :: outs) =
        (if tv_static then [PlayerAction.stopStatic] else []) ++
        [PlayerAction.spawn video] ++
        (if tv_static then [PlayerAction.resumeStatic] else []) ++
        [PlayerAction.killTree video, PlayerAction.killPlayer video]) := by
  constructor
  · rintro rfl
    cases tv_static <;> simp [play_videos, playOne]
  · rintro rfl
    cases tv_static <;> simp [play_videos, playOne]

/-- Witness for C2: with a static process, a `SKIP` during video 0 of two
videos resumes static, signals the tree, kills and reaps the player, then
plays video 1. -/
theorem C2_witness :
    play_videos true [(0 : Nat), 1] [Outcome.cmd TouchScreenCommand.SKIP] =
      [PlayerAction.stopStatic, PlayerAction.spawn 0, PlayerAction.resumeStatic,
       PlayerAction.killTree 0, PlayerAction.killPlayer 0, PlayerAction.waitPlayer 0,
       PlayerAction.stopStatic, PlayerAction.spawn 1, PlayerAction.waitPlayer 1] := by
  have h := (C2_command_handling true (0 : Nat) [1] [] TouchScreenCommand.SKIP).1 rfl
  rw [h]
  decide

/-- Claim C3: with at least two shows, no startup override and
`last_show_played` among the (distinct) freshly enumerated shows, the
selection succeeds and never picks `last_show_played` again. -/
theorem C3_no_immediate_repeat (shows : List String) (l : String)
    (shuffle : List String → List String)
    (hne : l ≠ "") (hnd : shows.Nodup) (hmem : l ∈ shows)
    (hlen : 2 ≤ shows.length)
    (hshuf : ∀ xs : List String, (shuffle xs).Perm xs) :
    ∃ s, select_show shows (some l) shuffle = Except.ok s ∧ s ≠ l := by
  have hcs : candidate_shows shows (some l) = Except.ok (shows.erase l) := by
    simp [candidate_shows, hne, hmem]
  have hlen1 : 1 ≤ (shows.erase l).length := by
    rw [List.length_erase_of_mem hmem]
    omega
  cases hsh : shuffle (shows.erase l) with
  | nil =>
      exfalso
      have := (hshuf (shows.erase l)).length_eq
      rw [hsh] at this
      simp at this
      omega
  | cons s t =>
      refine ⟨s, ?_, ?_⟩
      · simp [select_show, hcs, hsh]
      · have hs : s ∈ shows.erase l := by
          have : s ∈ shuffle (shows.erase l) := by
            rw [hsh]; exact List.mem_cons_self s t
          exact (hshuf (shows.erase l)).mem_iff.mp this
        intro heq
        rw [heq] at hs
        exact hnd.not_mem_erase hs

/-- Witness for C3: shows `["a", "b"]`, previous show `"a"`, identity
shuffle — the selection picks `"b"`, not `"a"` again. -/
theorem C3_witness :
    ∃ s, select_show ["a", "b"] (some "a") id = Except.ok s ∧ s ≠ "a" :=
  C3_no_immediate_repeat ["a", "b"] "a" id (by decide) (by decide) (by decide)
    (by decide) (fun xs => List.Perm.refl xs)

/-- Counterexample to C4: with exactly one show `"a"` already played last,
the next selection raises `IndexError` (the candidate list is empty after
`remove`), it does not select `"a"` again. -/
theorem C4_counterexample :
    select_show ["a"] (some "a") id = Except.error PyError.indexError := rfl

/-- Claim C4 as amended: with exactly one show, the first iteration (no
`last_show_played`) selects it, but every later iteration raises
`IndexError` after removing `last_show_played` from the candidate list,
instead of repeating the show. -/
theorem C4_single_show (s : String) (shuffle : List String → List String)
    (hs : s ≠ "") (hshuf : ∀ xs : List String, (shuffle xs).Perm xs) :
    select_show [s] none shuffle = Except.ok s ∧
    select_show [s] (some s) shuffle = Except.error PyError.indexError := by
  constructor
  · have h1 : shuffle [s] = [s] := List.perm_singleton.mp (hshuf [s])
    simp [select_show, candidate_shows, h1]
  · have herase : ([s].erase s) = [] := by simp
    have h2 : shuffle [] = [] := List.perm_nil.mp (hshuf [])
    simp [select_show, candidate_shows, hs, herase, h2]

/-- Witness for C4 (amended): the single show `"a"`, identity shuffle — the
first selection succeeds, the second errors. -/
theorem C4_witness :
    select_show ["a"] none id = Except.ok "a" ∧
    select_show ["a"] (some "a") id = Except.error PyError.indexError :=
  C4_single_show "a" id (by decide) (fun xs => List.Perm.refl xs)

/-- Claim C5: when the target pid no longer exists,
`kill_child_processes` (and the pause/resume wrappers built on it) sends no
signal, returns normally (`Except.ok`, the `NoSuchProcess` handler logs and
returns) and raises nothing. -/
theorem C5_vanished_process (tbl : ProcTable) (pid sig : Nat)
    (h : pid ∉ tbl.alive) :
    kill_child_processes tbl pid sig = Except.ok [] ∧
    resume_tv_static tbl (some pid) = Except.ok [] ∧
    stop_tv_static tbl (some pid) = Except.ok [] := by
  refine ⟨?_, ?_, ?_⟩ <;>
    simp [kill_child_processes, resume_tv_static, stop_tv_static, h]

/-- Witness for C5: pid 7 in an empty process table — every tree operation
returns normally having sent no signal. -/
theorem C5_witness :
    kill_child_processes ⟨[], fun _ => []⟩ 7 15 = Except.ok [] ∧
    resume_tv_static ⟨[], fun _ => []⟩ (some 7) = Except.ok [] ∧
    stop_tv_static ⟨[], fun _ => []⟩ (some 7) = Except.ok [] :=
  C5_vanished_process ⟨[], fun _ => []⟩ 7 15 (by simp)

/-- Claim C6: for an empty video list `play_videos` performs no action at
all — in particular it spawns no player — and returns at once. -/
theorem C6_empty_show {α : Type} (tv_static : Bool) (outs : List Outcome) :
    play_videos (α := α) tv_static [] outs = [] ∧
    ∀ v : α, PlayerAction.spawn v ∉ play_videos (α := α) tv_static [] outs := by
  refine ⟨rfl, ?_⟩
  intro v h
  simp [play_videos] at h

/-- Witness for C6: the concrete empty show with a static process and a
pending command observation. -/
theorem C6_witness :
    play_videos (α := Nat) true [] [Outcome.cmd TouchScreenCommand.SKIP] = [] :=
  (C6_empty_show true [Outcome.cmd TouchScreenCommand.SKIP]).1

/-- Counterexample to C7: one video with a static process, the video ends
naturally — `play_videos` returns (the system is between playbacks) with
the static tree stopped and never resumed. -/
theorem C7_counterexample :
    PlayerAction.stopStatic ∈ play_videos true [(0 : Nat)] [Outcome.natural] ∧
    PlayerAction.resumeStatic ∉ play_videos true [(0 : Nat)] [Outcome.natural] := by
  decide

/-- Claim C7 as amended: with a static process, every per-video iteration
suspends the static tree before spawning the player, but resumes it only
when a command interrupts the playback; after a natural end of video the
static tree is left suspended. -/
theorem C7_static_pause_resume {α : Type} (v : α) (o : Outcome) :
    PlayerAction.stopStatic ∈ (playOne true v o).1 ∧
    (PlayerAction.resumeStatic ∈ (playOne true v o).1 ↔ o ≠ Outcome.natural) := by
  cases o with
  | natural => simp [playOne]
  | cmd c => cases c <;> simp [playOne]

/-- Witness for C7 (amended): a `CHANGE_SHOW` interruption does resume the
static tree. -/
theorem C7_witness :
    PlayerAction.resumeStatic ∈
      (playOne true (0 : Nat) (Outcome.cmd TouchScreenCommand.CHANGE_SHOW)).1 :=
  (C7_static_pause_resume (0 : Nat)
    (Outcome.cmd TouchScreenCommand.CHANGE_SHOW)).2.mpr (by simp)

/-- Counterexample to C8: a video interrupted by `CHANGE_SHOW` is killed
but never waited on — `play_videos` returns without reaping the player. -/
theorem C8_counterexample :
    PlayerAction.killPlayer (0 : Nat) ∈
      play_videos false [(0 : Nat)] [Outcome.cmd TouchScreenCommand.CHANGE_SHOW] ∧
    PlayerAction.waitPlayer (0 : Nat) ∉
      play_videos false [(0 : Nat)] [Outcome.cmd TouchScreenCommand.CHANGE_SHOW] := by
  decide

/-- Claim C8 as amended: the player is reaped (`wait`) when its video ends
naturally and when it is interrupted by `SKIP`; when interrupted by
`CHANGE_SHOW` it is killed but `play_videos` returns without waiting on
it. -/
theorem C8_player_reaping {α : Type} (tv_static : Bool) (v : α) :
    PlayerAction.waitPlayer v ∈ (playOne tv_static v Outcome.natural).1 ∧
    PlayerAction.waitPlayer v ∈
      (playOne tv_static v (Outcome.cmd TouchScreenCommand.SKIP)).1 ∧
    PlayerAction.waitPlayer v ∉
      (playOne tv_static v (Outcome.cmd TouchScreenCommand.CHANGE_SHOW)).1 := by
  cases tv_static <;> simp [playOne]

/-- Witness for C8 (amended): a naturally ending video is waited on. -/
theorem C8_witness :
    PlayerAction.waitPlayer (0 : Nat) ∈ (playOne false (0 : Nat) Outcome.natural).1 :=
  (C8_player_reaping false (0 : Nat)).1

/-- Claim C9: when `last_show_played` is set (a non-empty name) but absent
from the freshly enumerated shows, the candidate-set construction raises
`ValueError` (`list.remove` on a missing element) and the selection
therefore errors rather than choosing among the remaining shows. -/
theorem C9_missing_last_show (shows : List String) (l : String)
    (shuffle : List String → List String) (hne : l ≠ "") (hmem : l ∉ shows) :
    candidate_shows shows (some l) = Except.error PyError.valueError ∧
    select_show shows (some l) shuffle = Except.error PyError.valueError := by
  have h : candidate_shows shows (some l) = Except.error PyError.valueError := by
    simp [candidate_shows, hne, hmem]
  exact ⟨h, by simp [select_show, h]⟩

/-- Witness for C9: the previous show `"b"` was deleted, only `"a"`
remains — the selection raises `ValueError` instead of picking `"a"`. -/
theorem C9_witness :
    candidate_shows ["a"] (some "b") = Except.error PyError.valueError ∧
    select_show ["a"] (some "b") id = Except.error PyError.valueError :=
  C9_missing_last_show ["a"] "b" id (by decide) (by decide)

/-- Claim C10: `get_videos` returns exactly the directory entries whose
lowercased name ends in `.mp4` or `.mkv`, each joined with the directory
path, in listing order; every other entry is excluded. -/
theorem C10_video_enumeration (directory : String) (listing : List String) :
    get_videos directory listing =
      (listing.filter is_video).map (os_path_join directory) ∧
    ∀ v, v ∈ get_videos directory listing ↔
      ∃ f ∈ listing,
        (py_endswith (py_lower f) ".mp4" || py_endswith (py_lower f) ".mkv") = true ∧
        v = os_path_join directory f := by
  have heq : get_videos directory listing =
      (listing.filter is_video).map (os_path_join directory) :=
    get_videos_foldl directory listing []
  refine ⟨heq, ?_⟩
  intro v
  rw [heq]
  simp only [List.mem_map, List.mem_filter, is_video, VALID_VIDEO_TYPES,
    List.any_cons, List.any_nil, Bool.or_false]
  constructor
  · rintro ⟨f, ⟨hf, hv⟩, rfl⟩
    exact ⟨f, hf, hv, rfl⟩
  · rintro ⟨f, hf, hv, rfl⟩
    exact ⟨f, ⟨hf, hv⟩, rfl⟩

/-- Witness for C10: a mixed listing — the uppercase `.MP4` entry and the
`.mkv` entry are kept (joined with the directory), the `.txt` entry is
dropped. -/
theorem C10_witness :
    get_videos "d" ["A.MP4", "b.txt", "c.mkv"] = ["d/A.MP4", "d/c.mkv"] := by
  have h := (C10_video_enumeration "d" ["A.MP4", "b.txt", "c.mkv"]).1
  rw [h]
  decide
